import Mathlib

/-!
# Verification of `notify_to_cisco_webex`

A shallow embedding of `notify_to_cisco_webex/notify_to_cisco_webex.py`:
the attachment resolver (`create_file_from_bytes`, `create_file_from_url`),
the request-construction and batching logic of `Webex.send` / `Webex._send_single`
/ `Webex._build_target_fields`, and the configuration-precedence resolution of
`main` together with `python-dotenv`'s `load_dotenv(override=False)`.

Bytes are modelled as `List Nat`; Python's `Optional[str]` as `Option String`;
Python truthiness of strings (`if text:`) as `pyTruthy`.  HTTP traffic is
modelled by an oracle `transport : Nat → Response` giving the response to the
i-th request issued during one `send` call; the requests actually issued are
collected in a trace so that batching and fail-stop behaviour are observable.
String helpers from the Python standard library (`pathlib.Path.name` /
`.suffix`, `str.split`, `str.strip`, `str.lower`, `mimetypes.guess_type`) are
embedded as structurally recursive functions over `List Char` so that all
definitions evaluate inside the kernel.
-/

namespace Webex

/-- Python truthiness for an optional string: `None` and `""` are falsy. -/
def pyTruthy : Option String → Bool
  | none => false
  | some s => if s = "" then false else true

/-- Python `a or default` for an optional string against a string default:
returns `a`'s value when truthy, else the default. -/
def pyStrOr (a : Option String) (d : String) : String :=
  match a with
  | some s => if s = "" then d else s
  | none => d

/-- Python `a or b` on two optional strings (`args.token or os.environ.get(...)`). -/
def pyOrOpt (a b : Option String) : Option String :=
  if pyTruthy a then a else b

/-- Python `str.lower` on an ASCII character. -/
def lowerChar (c : Char) : Char :=
  if 65 ≤ c.toNat ∧ c.toNat ≤ 90 then Char.ofNat (c.toNat + 32) else c

/-- Python `str.lower` (the configuration values handled here are ASCII). -/
def lowerString (s : String) : String :=
  String.mk (s.toList.map lowerChar)

/-- Python `c in s` for a single character. -/
def strContainsChar (s : String) (c : Char) : Bool :=
  s.toList.contains c

/-- Split a character list at every `'/'` (Python `str.split('/')`, as used by
`pathlib` to take components apart). -/
def splitSlash : List Char → List (List Char)
  | [] => [[]]
  | c :: rest =>
    match splitSlash rest with
    | [] => [[]]
    | g :: gs => if c = '/' then [] :: g :: gs else (c :: g) :: gs

/-- Last path component, modelling Python `pathlib.Path(p).name` on the
slash-separated names and URL paths that occur here (empty components are
dropped; no special-casing of `.` / `..`). -/
def pathName (p : String) : String :=
  match ((splitSlash p.toList).filter (fun s => ¬ s.isEmpty)).reverse with
  | [] => ""
  | s :: _ => String.mk s

/-- Index of the last `'.'` in a character list (Python `str.rfind('.')`),
`none` when absent. -/
def rfindDot (cs : List Char) : Option Nat :=
  match cs.reverse.findIdx? (fun c => c = '.') with
  | none => none
  | some j => some (cs.length - 1 - j)

/-- Modelling Python `pathlib.Path(p).suffix`: the substring of the last
component from its last dot, provided that dot is neither the first nor the
last character; `""` otherwise. -/
def pathSuffix (p : String) : String :=
  let name := (pathName p).toList
  match rfindDot name with
  | some i => if 0 < i ∧ i < name.length - 1 then String.mk (name.drop i) else ""
  | none => ""

/-- Modelled from the Python standard library `mimetypes.guess_type` registry,
restricted to the extensions exercised here (the source delegates guessing to
the stdlib; `.png → image/png` etc. per the standard registry). -/
def mimetypes_guess_type (filename : String) : Option String :=
  let sfx := lowerString (pathSuffix filename)
  if sfx = ".png" then some "image/png"
  else if sfx = ".jpg" then some "image/jpeg"
  else if sfx = ".jpeg" then some "image/jpeg"
  else if sfx = ".gif" then some "image/gif"
  else if sfx = ".txt" then some "text/plain"
  else if sfx = ".pdf" then some "application/pdf"
  else none

/-- Embedding of the `File` dataclass (all four attributes optional in the
source; `blob` holds the raw bytes). -/
structure File where
  mime_type : Option String
  filename : Option String
  extension : Option String
  blob : Option (List Nat)
  deriving DecidableEq, Repr

/-- Python truthiness of `file_item.blob` (`if not file_item.blob`): `None`
and `b""` are falsy. -/
def blobFalsy (b : Option (List Nat)) : Bool :=
  match b with
  | none => true
  | some bs => bs.isEmpty

/-- Embedding of `Webex.create_file_from_bytes(filename, blob, mime_type)`:
guesses the MIME type only when none is supplied, derives `extension` from the
filename's suffix without the leading dot. -/
def create_file_from_bytes (filename : String) (blob : List Nat)
    (mime_type : Option String) : File :=
  let mt := match mime_type with
    | some m => some m
    | none => mimetypes_guess_type filename
  let sfx := pathSuffix filename
  let ext := if sfx = "" then none else some (sfx.drop 1)
  ⟨mt, some filename, ext, some blob⟩

/-- Suffix of a character list strictly after the first occurrence of `sep`
(`none` when `sep` does not occur).  Together with `upToFirst` this models the
element at index 1 of Python `str.split(sep)`. -/
def afterFirst (sep : List Char) : List Char → Option (List Char)
  | [] => none
  | c :: rest =>
    if sep.isPrefixOf (c :: rest) then some ((c :: rest).drop sep.length)
    else afterFirst sep rest

/-- The part of a character list before the first occurrence of `sep` (all of
it when `sep` does not occur). -/
def upToFirst (sep : List Char) : List Char → List Char
  | [] => []
  | c :: rest =>
    if sep.isPrefixOf (c :: rest) then [] else c :: upToFirst sep rest

/-- Python `str.strip(chars)`: remove the given characters from both ends. -/
def stripChars (p : Char → Bool) (cs : List Char) : List Char :=
  ((cs.dropWhile p).reverse.dropWhile p).reverse

/-- The `content-disposition` filename parsing of `create_file_from_url`:
`parts = cd.split("filename="); parts[1].strip().strip('"').strip("'")`. -/
def parseDispositionFilename (cd : String) : Option String :=
  match afterFirst ("filename=".toList) cd.toList with
  | none => none
  | some rest =>
    let part := upToFirst ("filename=".toList) rest
    let part := stripChars (fun c => c.isWhitespace) part
    let part := stripChars (fun c => c.toNat = 34) part
    let part := stripChars (fun c => c.toNat = 39) part
    some (String.mk part)

/-- An HTTP response as observed by this client: status code, body text, the
JSON-decoded body when the body parses as JSON (the relevant headers are added
where needed).  Transport-level failures (connection, DNS, TLS) are outside
this model; the oracle always delivers a response. -/
structure UrlResponse where
  status : Nat
  contentType : Option String
  contentDisposition : Option String
  content : List Nat
  deriving DecidableEq, Repr

/-- The error taxonomy of the module: Python `ValueError`, `RuntimeError`,
`FileNotFoundError`, and an uncaught `httpx.HTTPStatusError` carrying the
status (raised by `resp.raise_for_status()` inside `create_file_from_url`). -/
inductive WxError where
  | valueError (msg : String)
  | runtimeError (msg : String)
  | fileNotFoundError (msg : String)
  | httpStatusError (status : Nat)
  deriving DecidableEq, Repr

/-- httpx `Response.is_success`: a 2xx status.  `raise_for_status` raises
exactly when this is false. -/
def is2xx (status : Nat) : Bool :=
  decide (200 ≤ status) && decide (status < 300)

/-- Embedding of `Webex.create_file_from_url`, parameterized by the
`urlparse` results (`scheme`, `path`) of the stdlib and by the observed HTTP
response.  Mirrors the source: scheme check, `raise_for_status`, filename from
`Content-Disposition` else from the URL path's last segment, extension from
the resolved filename's suffix, and `mime_type` taken verbatim from the
`Content-Type` header (which may be absent). -/
def create_file_from_url (scheme : String) (urlPath : String)
    (resp : UrlResponse) : Except WxError File :=
  if scheme ≠ "http" ∧ scheme ≠ "https" then
    .error (.valueError "Unsupported URL scheme for file")
  else if ¬ is2xx resp.status then
    .error (.httpStatusError resp.status)
  else
    let cd := resp.contentDisposition.getD ""
    let filename0 : Option String :=
      if pathName urlPath = "" then none else some (pathName urlPath)
    let filename : Option String :=
      match parseDispositionFilename cd with
      | some fn => some fn
      | none => filename0
    let ext : Option String :=
      match filename with
      | some fn => if fn ≠ "" ∧ pathSuffix fn ≠ "" then some ((pathSuffix fn).drop 1) else none
      | none => none
    .ok ⟨resp.contentType, filename, ext, some resp.content⟩

/-- The validated client state after `Webex.__init__` (which raises
`ValueError` unless `token` and `dst` are truthy; `WebexConfig.__post_init__`
restricts `msg_format` to `"text"` / `"markdown"`).  `timeout`, `insecure`,
`verbose` and `proxy` only configure the transport and logging and do not
influence request payloads, so they are not carried here. -/
structure Client where
  token : String
  dst : String
  msg_format : String
  deriving DecidableEq, Repr

/-- Embedding of `Webex._build_target_fields`: `toPersonEmail` when the
destination contains `'@'`, else `roomId`. -/
def buildTargetFields (c : Client) : List (String × String) :=
  if strContainsChar c.dst '@' then [("toPersonEmail", c.dst)]
  else [("roomId", c.dst)]

/-- The message fields added by `_send_single`: nothing when `text` is falsy;
otherwise `markdown` when the configured format is `"markdown"`, else `text`. -/
def msgFields (c : Client) (text : Option String) : List (String × String) :=
  if pyTruthy text then
    if c.msg_format = "markdown" then [("markdown", pyStrOr text "")]
    else [("text", pyStrOr text "")]
  else []

/-- The single `files` part of a multipart request:
`(filename or "file", blob, mime_type or "application/octet-stream")`. -/
structure FilePart where
  filename : String
  content : List Nat
  contentType : String
  deriving DecidableEq, Repr

/-- One HTTP request as constructed by `_send_single`: the body fields in
insertion order (destination first, then the optional message field), the
`Authorization` header value, and the optional multipart `files` part.  The
request is multipart exactly when `filePart` is present, JSON otherwise. -/
structure Request where
  fields : List (String × String)
  auth : String
  filePart : Option FilePart
  deriving DecidableEq, Repr

/-- Building the request of `_send_single` before it is posted; raises
`RuntimeError("File has no content")` when the attachment's blob is falsy. -/
def buildRequest (c : Client) (text : Option String) (fi : Option File) :
    Except WxError Request :=
  let fields := buildTargetFields c ++ msgFields c text
  let auth := "Bearer " ++ c.token
  match fi with
  | none => .ok ⟨fields, auth, none⟩
  | some f =>
    if blobFalsy f.blob then .error (.runtimeError "File has no content")
    else
      .ok ⟨fields, auth,
        some ⟨pyStrOr f.filename "file", f.blob.getD [],
          pyStrOr f.mime_type "application/octet-stream"⟩⟩

/-- The request `_send_single` issues on the success path, as a total
function (defined exactly when the blob is truthy). -/
def attachRequest (c : Client) (text : Option String) (f : File) : Request :=
  ⟨buildTargetFields c ++ msgFields c text, "Bearer " ++ c.token,
    some ⟨pyStrOr f.filename "file", f.blob.getD [],
      pyStrOr f.mime_type "application/octet-stream"⟩⟩

/-- A decoded JSON value in a response dictionary (only strings and numbers
occur in the fallback object synthesized by `_send_single`). -/
inductive JVal where
  | s (v : String)
  | n (v : Nat)
  deriving DecidableEq, Repr

/-- A decoded JSON response object. -/
abbrev RDict := List (String × JVal)

/-- The response to a `POST` of one message request: status, body text, and
the JSON-decoded body when the body parses as JSON. -/
structure Response where
  status : Nat
  text : String
  jsonBody : Option RDict
  deriving DecidableEq

/-- The error message `_send_single` raises for a response with a non-success
status: `RuntimeError(f"Webex API returned {status}: {body}")`. -/
def apiErrMsg (r : Response) : String :=
  "Webex API returned " ++ toString r.status ++ ": " ++ r.text

/-- Response handling of `_send_single`: `raise_for_status` turns a
non-2xx response into a `RuntimeError` carrying status and body text; a 2xx
response is JSON-decoded, with a `{"status_code": ..., "text": ...}` fallback
when decoding fails. -/
def handleResponse (r : Response) : Except WxError RDict :=
  if is2xx r.status then
    match r.jsonBody with
    | some j => .ok j
    | none => .ok [("status_code", .n r.status), ("text", .s r.text)]
  else .error (.runtimeError (apiErrMsg r))

/-- One `_send_single` call: build the request, and when that succeeds, issue
it (recording it in the trace) and handle the response delivered by the
transport oracle for request index `idx`. -/
def sendSingleStep (c : Client) (transport : Nat → Response) (idx : Nat)
    (text : Option String) (fi : Option File) :
    List Request × Except WxError RDict :=
  match buildRequest c text fi with
  | .error e => ([], .error e)
  | .ok req => ([req], handleResponse (transport idx))

/-- The remaining-files loop of `send` (`for f in prepared[1:]`): each file is
sent without message text; the first failure aborts the loop. -/
def sendRest (c : Client) (transport : Nat → Response) :
    Nat → List File → List Request × Except WxError (List RDict)
  | _, [] => ([], .ok [])
  | idx, f :: fs =>
    let step := sendSingleStep c transport idx none (some f)
    match step.2 with
    | .error e => (step.1, .error e)
    | .ok r =>
      let rest := sendRest c transport (idx + 1) fs
      match rest.2 with
      | .error e => (step.1 ++ rest.1, .error e)
      | .ok rs => (step.1 ++ rest.1, .ok (r :: rs))

/-- An item of the `files` argument of `send`: a string (path or URL), an
already-prepared `File`, or anything else (rejected with `ValueError`). -/
inductive FileItem where
  | str (s : String)
  | file (f : File)
  | other
  deriving Repr

/-- Normalization of one attachment reference (the loop body of `send`):
`File` instances pass through; strings are fetched via `create_file_from_url`
when they start with `http://` / `https://`, else read via
`create_file_from_path`; anything else raises `ValueError`.  The path and URL
resolvers are oracles standing for filesystem and network effects. -/
def normalizeItem (resolvePath resolveUrl : String → Except WxError File) :
    FileItem → Except WxError File
  | .file f => .ok f
  | .str s =>
    if s.startsWith "http://" ∨ s.startsWith "https://" then resolveUrl s
    else resolvePath s
  | .other => .error (.valueError "Unsupported file item type; must be path/url or File instance")

/-- The normalization loop of `send`, in order, aborting at the first error. -/
def normalizeAll (resolvePath resolveUrl : String → Except WxError File) :
    List FileItem → Except WxError (List File)
  | [] => .ok []
  | it :: rest =>
    match normalizeItem resolvePath resolveUrl it with
    | .error e => .error e
    | .ok f =>
      match normalizeAll resolvePath resolveUrl rest with
      | .error e => .error e
      | .ok fs => .ok (f :: fs)

/-- The return value of `send`: a single decoded response object, or the
ordered list of them when multiple requests were issued. -/
inductive SendResult where
  | single (r : RDict)
  | multiple (rs : List RDict)
  deriving DecidableEq

instance exceptDecEq {ε α : Type} [DecidableEq ε] [DecidableEq α] :
    DecidableEq (Except ε α) := fun a b =>
  match a, b with
  | .error e, .error e' =>
    if h : e = e' then isTrue (by rw [h]) else isFalse (fun hh => by cases hh; exact h rfl)
  | .error _, .ok _ => isFalse (fun hh => by cases hh)
  | .ok _, .error _ => isFalse (fun hh => by cases hh)
  | .ok x, .ok y =>
    if h : x = y then isTrue (by rw [h]) else isFalse (fun hh => by cases hh; exact h rfl)

/-- The observable outcome of one `send` call: the requests actually issued
in order, the returned value or raised error, and whether the underlying
httpx client was closed (`send` closes it in a `finally` around the dispatch
phase only; the close's own failure is suppressed there and has no further
effect). -/
structure SendOutcome where
  requests : List Request
  result : Except WxError SendResult
  clientClosed : Bool
  deriving DecidableEq

/-- Embedding of `Webex.send`: normalize the attachment references (which can
raise before the `try`/`finally` is entered), validate that message or
attachments are present (also before the `try`), then dispatch one request
(no or one attachment) or a batch (first request with message text, the rest
without), closing the client in all dispatch outcomes. -/
def send (c : Client) (resolvePath resolveUrl : String → Except WxError File)
    (transport : Nat → Response) (message : Option String)
    (files : Option (List FileItem)) : SendOutcome :=
  let items := files.getD []
  match normalizeAll resolvePath resolveUrl items with
  | .error e => ⟨[], .error e, false⟩
  | .ok prepared =>
    if ¬ pyTruthy message ∧ prepared.isEmpty then
      ⟨[], .error (.valueError "Either message or files must be provided"), false⟩
    else
      match prepared with
      | [] =>
        let step := sendSingleStep c transport 0 message none
        ⟨step.1, step.2.map .single, true⟩
      | [f] =>
        let step := sendSingleStep c transport 0 message (some f)
        ⟨step.1, step.2.map .single, true⟩
      | f :: f2 :: fs =>
        let step := sendSingleStep c transport 0 message (some f)
        match step.2 with
        | .error e => ⟨step.1, .error e, true⟩
        | .ok r0 =>
          let rest := sendRest c transport 1 (f2 :: fs)
          match rest.2 with
          | .error e => ⟨step.1 ++ rest.1, .error e, true⟩
          | .ok rs => ⟨step.1 ++ rest.1, .ok (.multiple (r0 :: rs)), true⟩

/-- Value of an ASCII digit character. -/
def digitVal? (c : Char) : Option Nat :=
  if 48 ≤ c.toNat ∧ c.toNat ≤ 57 then some (c.toNat - 48) else none

/-- Value of a non-empty, all-digit character list; `none` otherwise. -/
def digitsToNat? (cs : List Char) : Option Nat :=
  if cs.isEmpty then none
  else
    cs.foldl
      (fun acc c =>
        match acc, digitVal? c with
        | some a, some d => some (a * 10 + d)
        | _, _ => none)
      (some 0)

/-- Modelled from the Python standard library: `float(s)` on the plain
decimal literals that occur as timeout values (optional surrounding
whitespace, optional sign, digits with at most one decimal point; exponents,
`inf`/`nan` and digit underscores are outside this model).  The value is kept
as an exact rational, since IEEE rounding never affects which source's string
is parsed.  `none` models the `ValueError` that `float` raises on anything
else, in particular on the empty string. -/
def pyFloat? (s : String) : Option Rat :=
  let cs := stripChars (fun c => c.isWhitespace) s.toList
  let signAndBody : Int × List Char :=
    match cs with
    | c :: rest =>
      if c.toNat = 43 then (1, rest)
      else if c.toNat = 45 then (-1, rest)
      else (1, c :: rest)
    | [] => (1, [])
  let sign := signAndBody.1
  let body := signAndBody.2
  match afterFirst ['.'] body with
  | none =>
    match digitsToNat? body with
    | some n => some (mkRat (sign * n) 1)
    | none => none
  | some fracCs =>
    let intCs := upToFirst ['.'] body
    if afterFirst ['.'] fracCs ≠ none then none
    else if intCs.isEmpty ∧ fracCs.isEmpty then none
    else
      let ipart : Option Nat := if intCs.isEmpty then some 0 else digitsToNat? intCs
      let fpart : Option Nat := if fracCs.isEmpty then some 0 else digitsToNat? fracCs
      match ipart, fpart with
      | some n, some m =>
        some (mkRat (sign * (n * 10 ^ fracCs.length + m)) (10 ^ fracCs.length))
      | _, _ => none

/-- The CLI arguments relevant to configuration (argparse defaults: `None`
everywhere; the `--insecure` / `--verbose` flags are `store_true` with default
`None`, so they are either set (`some true`) or absent; `--timeout` is parsed
by argparse with `type=float`, so when present it is already a number). -/
structure CliArgs where
  token : Option String
  dst : Option String
  msg_format : Option String
  timeout : Option Rat
  insecure : Option Bool
  verbose : Option Bool
  proxy : Option String
  deriving DecidableEq, Repr

/-- A process environment or dotenv file: an association list from variable
names to values, first binding wins. -/
abbrev Env := List (String × String)

/-- Modelled from python-dotenv: `load_dotenv(override=False)` adds a file
binding to the environment only when the variable is entirely absent from it
(a variable that is set, even to the empty string, is left untouched). -/
def load_dotenv_noOverride (osEnv fileVals : Env) : Env :=
  osEnv ++ fileVals.filter (fun kv => (List.lookup kv.1 osEnv).isNone)

/-- The seven configuration fields resolved by `main`; `timeout` is the
float selected by `args.timeout if args.timeout is not None else
float(os.environ.get("WEBEX_TIMEOUT", "10"))`, kept as an exact rational. -/
structure ResolvedConfig where
  token : Option String
  dst : Option String
  msg_format : String
  timeout : Rat
  insecure : Bool
  verbose : Bool
  proxy : Option String
  deriving DecidableEq, Repr

/-- The truthy tokens accepted for boolean environment variables. -/
def truthyTokens : List String := ["1", "true", "yes", "on"]

/-- Embedding of the configuration resolution in `main` (after
`_load_env_files`, i.e. `load_dotenv(override=False)`): `or`-chains for the
string fields, `args.timeout if args.timeout is not None else
float(os.environ.get("WEBEX_TIMEOUT", "10"))` for the timeout (an unparseable
environment value makes `float` raise an uncaught `ValueError`, so the whole
resolution fails), explicit `is not None` checks for the boolean flags, and
the `Markdown` default lowered at the end. -/
def resolveConfig (args : CliArgs) (osEnv fileVals : Env) :
    Except WxError ResolvedConfig :=
  let env := load_dotenv_noOverride osEnv fileVals
  let token := pyOrOpt args.token (List.lookup "WEBEX_TOKEN" env)
  let dst := pyOrOpt args.dst (List.lookup "WEBEX_DST" env)
  let fmt :=
    (pyOrOpt args.msg_format (some ((List.lookup "WEBEX_FORMAT" env).getD "Markdown"))).getD ""
  match
    (match args.timeout with
     | some t => some t
     | none => pyFloat? ((List.lookup "WEBEX_TIMEOUT" env).getD "10")) with
  | none =>
    .error (.valueError ("could not convert string to float: "
      ++ (List.lookup "WEBEX_TIMEOUT" env).getD "10"))
  | some timeout =>
    let insecure :=
      match args.insecure with
      | some b => b
      | none =>
        match List.lookup "WEBEX_INSECURE" env with
        | some v => truthyTokens.contains (lowerString v)
        | none => false
    let verbose :=
      match args.verbose with
      | some b => b
      | none =>
        match List.lookup "WEBEX_VERBOSE" env with
        | some v => (!v.isEmpty) && truthyTokens.contains (lowerString v)
        | none => false
    let proxy := pyOrOpt args.proxy (List.lookup "WEBEX_PROXY" env)
    .ok ⟨token, dst, lowerString fmt, timeout, insecure, verbose, proxy⟩

/-- `WebexConfig.__post_init__` plus `Webex.__init__`: the format must be
`"text"` or `"markdown"` and token and destination must be truthy; the
validated client is returned. -/
def mkClient (cfg : ResolvedConfig) : Except WxError Client :=
  if cfg.msg_format ≠ "text" ∧ cfg.msg_format ≠ "markdown" then
    .error (.valueError "msg_format must be text or markdown")
  else if ¬ pyTruthy cfg.token then .error (.valueError "WEBEX token is required")
  else if ¬ pyTruthy cfg.dst then .error (.valueError "WEBEX dst is required")
  else .ok ⟨cfg.token.getD "", cfg.dst.getD "", cfg.msg_format⟩

/-- A path resolver that always fails (stands for a filesystem without the
requested files); used in concrete instantiations. -/
def rpNone : String → Except WxError File :=
  fun s => .error (.fileNotFoundError ("File not found: " ++ s))

/-- A URL resolver that always fails; used in concrete instantiations. -/
def ruNone : String → Except WxError File :=
  fun _ => .error (.httpStatusError 404)

/-- A transport oracle answering every request with `200` and a decoded
`{"id": "m"}` body; used in concrete instantiations. -/
def tr200 : Nat → Response :=
  fun _ => ⟨200, "", some [("id", .s "m")]⟩

/-- A transport oracle whose first response succeeds and whose later
responses are `404`; used in concrete instantiations. -/
def trFail1 : Nat → Response :=
  fun i => if i = 0 then ⟨200, "", some [("id", .s "m")]⟩ else ⟨404, "not found", none⟩

/-- A concrete prepared attachment; used in concrete instantiations. -/
def fileA : File := ⟨some "image/png", some "a.png", some "png", some [1, 2]⟩

/-- A second concrete prepared attachment; used in concrete instantiations. -/
def fileB : File := ⟨some "image/jpeg", some "b.jpg", some "jpg", some [3]⟩

/-- A concrete validated client posting to a room; used in concrete
instantiations. -/
def clRoom : Client := ⟨"tok", "room", "markdown"⟩

/-- A concrete validated client posting to a person email; used in concrete
instantiations. -/
def clMail : Client := ⟨"tok", "u@e.com", "markdown"⟩

/-- The single request issued by `clRoom` for a markdown message without
attachments; used in concrete instantiations. -/
def reqRoomMd : Request := ⟨[("roomId", "room"), ("markdown", "hi")], "Bearer tok", none⟩

/-- The single request issued by `clMail` for a markdown message without
attachments; used in concrete instantiations. -/
def reqMailMd : Request := ⟨[("toPersonEmail", "u@e.com"), ("markdown", "hi")], "Bearer tok", none⟩

/-- CLI arguments with nothing supplied; used in concrete instantiations. -/
def argsNone : CliArgs := ⟨none, none, none, none, none, none, none⟩

/-- CLI arguments supplying only a token; used in concrete instantiations. -/
def argsCliTok : CliArgs := ⟨some "clitok", none, none, none, none, none, none⟩

/-- The configuration resolved from `argsCliTok` over environment and file
tokens; used in concrete instantiations. -/
def cfgCliTok : ResolvedConfig :=
  ⟨some "clitok", none, "markdown", mkRat 10 1, false, false, none⟩

/-- Some concrete sanity checks of the path helpers. -/
example : pathName "/path/to/fruits.jpg" = "fruits.jpg" := by decide
example : pathSuffix "a.png" = ".png" := by decide
example : pathSuffix "noext" = "" := by decide
example : pathSuffix ".bashrc" = "" := by decide
example : pathSuffix "a." = "" := by decide
example : pathSuffix "a.tar.gz" = ".gz" := by decide
example : mimetypes_guess_type "x.png" = some "image/png" := by decide
example : (create_file_from_bytes "hello.txt" [104] (some "text/plain")).extension
    = some "txt" := by decide

/-- Scenario checks against §8 of the spec: text-only send. -/
example :
    (send ⟨"tok", "room-123", "markdown"⟩ rpNone ruNone tr200 (some "hi") none).requests
      = [⟨[("roomId", "room-123"), ("markdown", "hi")], "Bearer tok", none⟩] := by decide

example :
    (send ⟨"tok", "user@example.com", "text"⟩ rpNone ruNone tr200 (some "Hello") (some [])).requests
      = [⟨[("toPersonEmail", "user@example.com"), ("text", "Hello")], "Bearer tok", none⟩] := by
  decide

/-- Scenario check: two attachments give two requests, the second without a
message field. -/
example :
    (send ⟨"tok", "room", "markdown"⟩ rpNone ruNone tr200 (some "hi")
        (some [.file ⟨some "image/png", some "a.png", some "png", some [1, 2]⟩,
               .file ⟨some "image/jpeg", some "b.jpg", some "jpg", some [3]⟩])).requests
      = [⟨[("roomId", "room"), ("markdown", "hi")], "Bearer tok",
            some ⟨"a.png", [1, 2], "image/png"⟩⟩,
          ⟨[("roomId", "room")], "Bearer tok", some ⟨"b.jpg", [3], "image/jpeg"⟩⟩] := by decide

/-- Sanity: both message and files missing fail before any request. -/
example :
    send ⟨"tok", "room", "markdown"⟩ rpNone ruNone tr200 none none
      = ⟨[], .error (.valueError "Either message or files must be provided"), false⟩ := by decide

/-- Sanity: configuration resolution gives env over file, file over default,
and the default timeout string parses to 10. -/
example :
    (resolveConfig argsNone [("WEBEX_TOKEN", "envtok")] [("WEBEX_TOKEN", "filetok")]).map
        ResolvedConfig.token = .ok (some "envtok") := by
  decide

example :
    (resolveConfig argsNone [] [("WEBEX_TOKEN", "filetok")]).map ResolvedConfig.token
      = .ok (some "filetok") := by decide

example :
    (resolveConfig argsNone [] []).map ResolvedConfig.msg_format = .ok "markdown" := by
  decide

example : pyFloat? "10" = some (mkRat 10 1) := by decide
example : pyFloat? "2.5" = some (mkRat 5 2) := by decide
example : pyFloat? " -3. " = some (mkRat (-3) 1) := by decide
example : pyFloat? ".25" = some (mkRat 1 4) := by decide
example : pyFloat? "" = none := by decide
example : pyFloat? "abc" = none := by decide
example :
    (resolveConfig argsNone [("WEBEX_TIMEOUT", "2.5")] []).map ResolvedConfig.timeout
      = .ok (mkRat 5 2) := by decide

/-- Sanity: a set but empty `WEBEX_TIMEOUT` makes the resolution fail. -/
example :
    resolveConfig argsNone [("WEBEX_TIMEOUT", "")] []
      = .error (.valueError "could not convert string to float: ") := by decide

/-! ## Helper lemmas about the dispatch machinery -/

theorem handleResponse_2xx (r : Response) (h : is2xx r.status = true) :
    ∃ d, handleResponse r = .ok d := by
  cases hj : r.jsonBody with
  | some j => exact ⟨j, by simp [handleResponse, h, hj]⟩
  | none =>
    exact ⟨[("status_code", .n r.status), ("text", .s r.text)],
      by simp [handleResponse, h, hj]⟩

theorem handleResponse_fail (r : Response) (h : is2xx r.status = false) :
    handleResponse r = .error (.runtimeError (apiErrMsg r)) := by
  simp [handleResponse, h]

theorem is2xx_of_ge_400 (s : Nat) (h : 400 ≤ s) : is2xx s = false := by
  simp only [is2xx, Bool.and_eq_false_iff, decide_eq_false_iff_not, not_lt]
  omega

theorem buildRequest_some_ok (c : Client) (t : Option String) (f : File)
    (hb : blobFalsy f.blob = false) :
    buildRequest c t (some f) = .ok (attachRequest c t f) := by
  simp [buildRequest, attachRequest, hb]

theorem sendSingleStep_some (c : Client) (tr : Nat → Response) (idx : Nat)
    (t : Option String) (f : File) (hb : blobFalsy f.blob = false) :
    sendSingleStep c tr idx t (some f)
      = ([attachRequest c t f], handleResponse (tr idx)) := by
  simp [sendSingleStep, buildRequest_some_ok c t f hb]

theorem sendSingleStep_nofile (c : Client) (tr : Nat → Response) (idx : Nat)
    (t : Option String) :
    sendSingleStep c tr idx t none
      = ([⟨buildTargetFields c ++ msgFields c t, "Bearer " ++ c.token, none⟩],
          handleResponse (tr idx)) := by
  simp [sendSingleStep, buildRequest]

theorem sendSingleStep_trace (c : Client) (tr : Nat → Response) (idx : Nat)
    (t : Option String) (f : File) :
    (sendSingleStep c tr idx t (some f)).1 = [] ∨
    (sendSingleStep c tr idx t (some f)).1 = [attachRequest c t f] := by
  by_cases hb : blobFalsy f.blob = true
  · left
    simp [sendSingleStep, buildRequest, hb]
  · right
    rw [sendSingleStep_some c tr idx t f (by simpa using hb)]

theorem normalizeAll_files (rp ru : String → Except WxError File) (atts : List File) :
    normalizeAll rp ru (atts.map FileItem.file) = .ok atts := by
  induction atts with
  | nil => rfl
  | cons f fs ih => simp [normalizeAll, normalizeItem, ih]

theorem sendRest_all_ok (c : Client) (tr : Nat → Response) (fs : List File) :
    ∀ idx, (∀ i, is2xx (tr i).status = true) →
    (∀ f ∈ fs, blobFalsy f.blob = false) →
    ∃ rs, sendRest c tr idx fs = (fs.map (attachRequest c none), .ok rs) := by
  induction fs with
  | nil =>
    intro idx _ _
    exact ⟨[], rfl⟩
  | cons f fs ih =>
    intro idx h2 hb
    obtain ⟨rs, hrs⟩ := ih (idx + 1) h2 (fun g hg => hb g (List.mem_cons_of_mem _ hg))
    obtain ⟨d, hd⟩ := handleResponse_2xx (tr idx) (h2 idx)
    refine ⟨d :: rs, ?_⟩
    simp [sendRest, sendSingleStep_some c tr idx none f (hb f (List.mem_cons_self f fs)),
      hd, hrs]

theorem sendRest_fail_at (c : Client) (tr : Nat → Response) (fs : List File) :
    ∀ idx k, k < fs.length →
    (∀ j, j < k → is2xx (tr (idx + j)).status = true) →
    is2xx (tr (idx + k)).status = false →
    (∀ f ∈ fs, blobFalsy f.blob = false) →
    sendRest c tr idx fs =
      ((fs.take (k + 1)).map (attachRequest c none),
        .error (.runtimeError (apiErrMsg (tr (idx + k))))) := by
  induction fs with
  | nil =>
    intro idx k hk
    simp at hk
  | cons f fs ih =>
    intro idx k hk hpre hfail hb
    have hbf := hb f (List.mem_cons_self f fs)
    cases k with
    | zero =>
      have hf0 : is2xx (tr idx).status = false := by simpa using hfail
      have herr := handleResponse_fail (tr idx) hf0
      simp [sendRest, sendSingleStep_some c tr idx none f hbf, herr]
    | succ k =>
      have h0 : is2xx (tr idx).status = true := by
        have := hpre 0 (Nat.succ_pos k)
        simpa using this
      obtain ⟨d, hd⟩ := handleResponse_2xx (tr idx) h0
      have hpre' : ∀ j, j < k → is2xx (tr (idx + 1 + j)).status = true := by
        intro j hj
        have hx := hpre (j + 1) (by omega)
        have he : idx + (j + 1) = idx + 1 + j := by omega
        rwa [he] at hx
      have hfail' : is2xx (tr (idx + 1 + k)).status = false := by
        have he : idx + (k + 1) = idx + 1 + k := by omega
        rwa [he] at hfail
      have ihk := ih (idx + 1) k (by simp at hk; omega) hpre' hfail'
        (fun g hg => hb g (List.mem_cons_of_mem _ hg))
      have he : idx + 1 + k = idx + (k + 1) := by omega
      rw [he] at ihk
      simp [sendRest, sendSingleStep_some c tr idx none f hbf, hd, ihk]

theorem sendRest_mem (c : Client) (tr : Nat → Response) (fs : List File) :
    ∀ idx r, r ∈ (sendRest c tr idx fs).1 → ∃ f ∈ fs, r = attachRequest c none f := by
  induction fs with
  | nil =>
    intro idx r hr
    simp [sendRest] at hr
  | cons f fs ih =>
    intro idx r hr
    cases hres : (sendSingleStep c tr idx none (some f)).2 with
    | error e =>
      have heq : (sendRest c tr idx (f :: fs)).1 = (sendSingleStep c tr idx none (some f)).1 := by
        simp [sendRest, hres]
      rw [heq] at hr
      rcases sendSingleStep_trace c tr idx none f with h1 | h1 <;> rw [h1] at hr
      · simp at hr
      · simp at hr
        exact ⟨f, List.mem_cons_self f fs, hr⟩
    | ok d =>
      have heq : (sendRest c tr idx (f :: fs)).1
          = (sendSingleStep c tr idx none (some f)).1 ++ (sendRest c tr (idx + 1) fs).1 := by
        cases hres2 : (sendRest c tr (idx + 1) fs).2 <;> simp [sendRest, hres, hres2]
      rw [heq] at hr
      rcases List.mem_append.mp hr with h | h
      · rcases sendSingleStep_trace c tr idx none f with h1 | h1 <;> rw [h1] at h
        · simp at h
        · simp at h
          exact ⟨f, List.mem_cons_self f fs, h⟩
      · obtain ⟨g, hg, hgr⟩ := ih (idx + 1) r h
        exact ⟨g, List.mem_cons_of_mem _ hg, hgr⟩

/-- Every request issued during a `send` call has the destination fields
first, then the message fields for some optional text, the bearer token in
the `Authorization` header, and an optional file part. -/
theorem send_requests_shape (c : Client) (rp ru : String → Except WxError File)
    (tr : Nat → Response) (msg : Option String) (files : Option (List FileItem))
    (r : Request) (hr : r ∈ (send c rp ru tr msg files).requests) :
    ∃ t fp, r = ⟨buildTargetFields c ++ msgFields c t, "Bearer " ++ c.token, fp⟩ := by
  simp only [send] at hr
  split at hr
  · simp at hr
  · split at hr
    · simp at hr
    · split at hr
      · rw [sendSingleStep_nofile c tr 0 msg] at hr
        simp at hr
        exact ⟨msg, none, hr⟩
      · rename_i f heq hneg
        rcases sendSingleStep_trace c tr 0 msg f with h1 | h1 <;>
          rw [h1] at hr
        · simp at hr
        · simp at hr
          exact ⟨msg, _, hr⟩
      · rename_i f f2 fs heq hneg
        have hmem : r ∈ (sendSingleStep c tr 0 msg (some f)).1 ∨
            r ∈ (sendRest c tr 1 (f2 :: fs)).1 := by
          split at hr
          · exact Or.inl hr
          · split at hr
            · exact List.mem_append.mp hr
            · exact List.mem_append.mp hr
        rcases hmem with h | h
        · rcases sendSingleStep_trace c tr 0 msg f with h1 | h1 <;> rw [h1] at h
          · simp at h
          · simp at h
            exact ⟨msg, _, h⟩
        · obtain ⟨g, _, hgr⟩ := sendRest_mem c tr (f2 :: fs) 1 r h
          exact ⟨none, _, hgr⟩

/-! ## Helper lemmas about association-list lookup and the dotenv merge -/

theorem pyOrOpt_left {a b : Option String} (h : pyTruthy a = true) : pyOrOpt a b = a := by
  simp [pyOrOpt, h]

theorem pyOrOpt_right {a b : Option String} (h : pyTruthy a = false) : pyOrOpt a b = b := by
  simp [pyOrOpt, h]

theorem lookup_append_left {l1 l2 : Env} {k v : String}
    (h : List.lookup k l1 = some v) : List.lookup k (l1 ++ l2) = some v := by
  induction l1 with
  | nil => simp [List.lookup] at h
  | cons kv l ih =>
    obtain ⟨k1, v1⟩ := kv
    by_cases hk : (k == k1) = true
    · simp only [List.lookup, hk] at h
      simp only [List.cons_append, List.lookup, hk]
      exact h
    · have hk' : (k == k1) = false := by simpa using hk
      simp only [List.lookup, hk'] at h
      simp only [List.cons_append, List.lookup, hk']
      exact ih h

theorem lookup_append_right {l1 l2 : Env} {k : String}
    (h : List.lookup k l1 = none) : List.lookup k (l1 ++ l2) = List.lookup k l2 := by
  induction l1 with
  | nil => simp
  | cons kv l ih =>
    obtain ⟨k1, v1⟩ := kv
    by_cases hk : (k == k1) = true
    · simp only [List.lookup, hk] at h
      exact absurd h (by simp)
    · have hk' : (k == k1) = false := by simpa using hk
      simp only [List.lookup, hk'] at h
      simp only [List.cons_append, List.lookup, hk']
      exact ih h

theorem lookup_filter_of_absent {os fv : Env} {k : String}
    (h : List.lookup k os = none) :
    List.lookup k (fv.filter (fun kv => (List.lookup kv.1 os).isNone)) = List.lookup k fv := by
  induction fv with
  | nil => simp
  | cons kv l ih =>
    obtain ⟨k1, v1⟩ := kv
    by_cases hk : (k == k1) = true
    · have hkeq : k = k1 := eq_of_beq hk
      have hp : (List.lookup k1 os).isNone = true := by
        rw [← hkeq, h]
        rfl
      simp only [List.filter, hp, List.lookup, hk]
    · have hk' : (k == k1) = false := by simpa using hk
      cases hp : (List.lookup k1 os).isNone with
      | true => simpa only [List.filter, hp, List.lookup, hk'] using ih
      | false => simpa only [List.filter, hp, List.lookup, hk'] using ih

theorem lookup_loadDotenv (os fv : Env) (k : String) :
    List.lookup k (load_dotenv_noOverride os fv)
      = match List.lookup k os with
        | some v => some v
        | none => List.lookup k fv := by
  unfold load_dotenv_noOverride
  cases h : List.lookup k os with
  | some v => exact lookup_append_left h
  | none => rw [lookup_append_right h, lookup_filter_of_absent h]

theorem lookup_singleton_self {β : Type} (a : String) (b : β) :
    List.lookup a [(a, b)] = some b := by
  simp [List.lookup]

theorem lookup_singleton_ne {β : Type} (k a : String) (b : β) (h : k ≠ a) :
    List.lookup k [(a, b)] = none := by
  simp [List.lookup, beq_eq_false_iff_ne.mpr h]

/-- Looking up a key other than the destination field names skips past the
target fields of a request. -/
theorem lookup_skip_target (c : Client) (l : List (String × String)) (k : String)
    (h1 : k ≠ "toPersonEmail") (h2 : k ≠ "roomId") :
    List.lookup k (buildTargetFields c ++ l) = List.lookup k l := by
  unfold buildTargetFields
  by_cases h : strContainsChar c.dst '@' = true
  · simp [h, List.lookup, beq_eq_false_iff_ne.mpr h1]
  · have h' : strContainsChar c.dst '@' = false := by simpa using h
    simp [h', List.lookup, beq_eq_false_iff_ne.mpr h2]

/-! ## Claim theorems -/

/-- C1: for a `send` with a resolved attachment list of length N (all
attachments non-empty, all responses successful): if N = 0 exactly one request
is issued carrying only the message; if N = 1 exactly one request carrying
the message (if any) with that attachment; if N ≥ 2 exactly N requests in
attachment order, the first with the message (if any) and attachment 0, each
subsequent one with attachment i alone and no message text. -/
theorem send_batching (c : Client) (rp ru : String → Except WxError File)
    (tr : Nat → Response) (msg : Option String) (atts : List File)
    (h2 : ∀ i, is2xx (tr i).status = true)
    (hb : ∀ f ∈ atts, blobFalsy f.blob = false)
    (hmv : pyTruthy msg = true ∨ atts ≠ []) :
    (send c rp ru tr msg (some (atts.map FileItem.file))).requests =
      match atts with
      | [] => [⟨buildTargetFields c ++ msgFields c msg, "Bearer " ++ c.token, none⟩]
      | a :: rest => attachRequest c msg a :: rest.map (attachRequest c none) := by
  match atts with
  | [] =>
    have hm : pyTruthy msg = true := by
      rcases hmv with h | h
      · exact h
      · exact absurd rfl h
    simp [send, normalizeAll, hm, sendSingleStep_nofile]
  | [a] =>
    have hba := hb a (by simp)
    simp [send, normalizeAll, normalizeItem, sendSingleStep_some c tr 0 msg a hba]
  | a :: a2 :: rest =>
    have hba := hb a (by simp)
    obtain ⟨d, hd⟩ := handleResponse_2xx (tr 0) (h2 0)
    obtain ⟨rs, hrs⟩ := sendRest_all_ok c tr (a2 :: rest) 1 h2
      (fun g hg => hb g (List.mem_cons_of_mem _ hg))
    simp [send, normalizeAll, normalizeItem, normalizeAll_files,
      sendSingleStep_some c tr 0 msg a hba, hd, hrs]

/-- Witness for C1 at two concrete attachments. -/
theorem send_batching_witness :
    (send clRoom rpNone ruNone tr200 (some "hi")
        (some ([fileA, fileB].map FileItem.file))).requests
      = attachRequest clRoom (some "hi") fileA :: [fileB].map (attachRequest clRoom none) :=
  send_batching clRoom rpNone ruNone tr200 (some "hi") [fileA, fileB]
    (fun _ => rfl) (by decide) (Or.inl (by decide))

/-- C6: when both the message and the attachment list are empty or absent,
`send` fails with `ValueError` and no request is issued (and, in passing, the
client is not closed because the failure happens before the dispatch phase). -/
theorem empty_input_rejected (c : Client) (rp ru : String → Except WxError File)
    (tr : Nat → Response) (message : Option String) (files : Option (List FileItem))
    (hm : pyTruthy message = false)
    (hf : files = none ∨ files = some []) :
    send c rp ru tr message files
      = ⟨[], .error (.valueError "Either message or files must be provided"), false⟩ := by
  have hfl : files.getD [] = [] := by
    rcases hf with h | h <;> simp [h]
  simp [send, hfl, normalizeAll, hm]

/-- Witness for C6 at a concrete client with no message and no files. -/
theorem empty_input_rejected_witness :
    send clRoom rpNone ruNone tr200 none none
      = ⟨[], .error (.valueError "Either message or files must be provided"), false⟩ :=
  empty_input_rejected clRoom rpNone ruNone tr200 none none rfl (Or.inl rfl)

/-- C9: `create_file_from_bytes` with an explicitly supplied MIME type always
succeeds and returns the three inputs unchanged, with the extension equal to
the filename's suffix without the leading dot (absent when there is no
suffix); empty content is accepted. -/
theorem from_bytes_roundtrip (name : String) (content : List Nat) (mime : String) :
    (create_file_from_bytes name content (some mime)).filename = some name ∧
    (create_file_from_bytes name content (some mime)).blob = some content ∧
    (create_file_from_bytes name content (some mime)).mime_type = some mime ∧
    (create_file_from_bytes name content (some mime)).extension
      = (if pathSuffix name = "" then none else some ((pathSuffix name).drop 1)) :=
  ⟨rfl, rfl, rfl, rfl⟩

/-- C2 counterexample: the destination `"a @b"` contains `'@'` and whitespace,
so under the claim it is not a person-email target and must be placed under
`roomId`; the code checks only for `'@'` and the issued request carries it
under `toPersonEmail`. -/
theorem target_field_whitespace_email_cex :
    ("a @b".toList.any (fun ch => ch.isWhitespace)) = true ∧
    (send ⟨"tok", "a @b", "markdown"⟩ rpNone ruNone tr200 (some "hi") none).requests
      = [⟨[("toPersonEmail", "a @b"), ("markdown", "hi")], "Bearer tok", none⟩] ∧
    (send ⟨"tok", "a @b", "markdown"⟩ rpNone ruNone tr200 (some "hi") none).requests
      ≠ [⟨[("roomId", "a @b"), ("markdown", "hi")], "Bearer tok", none⟩] := by
  decide

/-- C2 (amended): for every issued request, the destination is placed under
`toPersonEmail` exactly when the configured destination contains `'@'`
(whitespace plays no role) and under `roomId` otherwise; the classification
is the same for every request in a batch. -/
theorem target_field_selection (c : Client) (rp ru : String → Except WxError File)
    (tr : Nat → Response) (msg : Option String) (files : Option (List FileItem)) :
    ∀ r ∈ (send c rp ru tr msg files).requests,
      (strContainsChar c.dst '@' = true → r.fields.head? = some ("toPersonEmail", c.dst)) ∧
      (strContainsChar c.dst '@' = false → r.fields.head? = some ("roomId", c.dst)) := by
  intro r hr
  obtain ⟨t, fp, rfl⟩ := send_requests_shape c rp ru tr msg files r hr
  constructor <;> intro h <;> simp [buildTargetFields, h]

/-- Witness for C2's amended theorem at a person-email destination. -/
theorem target_field_selection_witness :
    reqMailMd.fields.head? = some ("toPersonEmail", "u@e.com") :=
  (target_field_selection clMail rpNone ruNone tr200 (some "hi") none
    reqMailMd (by decide)).1 (by decide)

/-- C3: each issued request's body consists of the destination fields plus the
message fields for some optional text; when that text is present it is placed
under `markdown` when the configured format is `markdown` and under `text`
when it is `text`, never under both; when no message text is carried neither
field appears. -/
theorem message_field_selection (c : Client) (rp ru : String → Except WxError File)
    (tr : Nat → Response) (msg : Option String) (files : Option (List FileItem)) :
    ∀ r ∈ (send c rp ru tr msg files).requests, ∃ t : Option String,
      r.fields = buildTargetFields c ++ msgFields c t ∧
      (pyTruthy t = true → c.msg_format = "markdown" →
        List.lookup "markdown" r.fields = some (pyStrOr t "") ∧
        List.lookup "text" r.fields = none) ∧
      (pyTruthy t = true → c.msg_format = "text" →
        List.lookup "text" r.fields = some (pyStrOr t "") ∧
        List.lookup "markdown" r.fields = none) ∧
      (pyTruthy t = false →
        List.lookup "text" r.fields = none ∧
        List.lookup "markdown" r.fields = none) ∧
      (List.lookup "text" r.fields = none ∨ List.lookup "markdown" r.fields = none) := by
  intro r hr
  obtain ⟨t, fp, rfl⟩ := send_requests_shape c rp ru tr msg files r hr
  have hmd : ∀ l, List.lookup "markdown" (buildTargetFields c ++ l) = List.lookup "markdown" l :=
    fun l => lookup_skip_target c l "markdown" (by decide) (by decide)
  have htx : ∀ l, List.lookup "text" (buildTargetFields c ++ l) = List.lookup "text" l :=
    fun l => lookup_skip_target c l "text" (by decide) (by decide)
  dsimp only
  refine ⟨t, rfl, ?_, ?_, ?_, ?_⟩
  · intro ht hf
    have hm : msgFields c t = [("markdown", pyStrOr t "")] := by simp [msgFields, ht, hf]
    constructor
    · rw [hmd, hm, lookup_singleton_self]
    · rw [htx, hm, lookup_singleton_ne _ _ _ (by decide)]
  · intro ht hf
    have hm : msgFields c t = [("text", pyStrOr t "")] := by
      simp [msgFields, ht, hf]
    constructor
    · rw [htx, hm, lookup_singleton_self]
    · rw [hmd, hm, lookup_singleton_ne _ _ _ (by decide)]
  · intro ht
    have hm : msgFields c t = [] := by simp [msgFields, ht]
    constructor
    · rw [htx, hm]
      rfl
    · rw [hmd, hm]
      rfl
  · by_cases hf : c.msg_format = "markdown"
    · left
      rw [htx]
      by_cases ht : pyTruthy t = true
      · rw [show msgFields c t = [("markdown", pyStrOr t "")] from by simp [msgFields, ht, hf],
          lookup_singleton_ne _ _ _ (by decide)]
      · rw [show msgFields c t = [] from by simp [msgFields, by simpa using ht]]
        rfl
    · right
      rw [hmd]
      by_cases ht : pyTruthy t = true
      · rw [show msgFields c t = [("text", pyStrOr t "")] from by simp [msgFields, ht, hf],
          lookup_singleton_ne _ _ _ (by decide)]
      · rw [show msgFields c t = [] from by simp [msgFields, by simpa using ht]]
        rfl

/-- Witness for C3 at a concrete markdown message request. -/
theorem message_field_selection_witness :
    ∃ t : Option String,
      reqRoomMd.fields = buildTargetFields clRoom ++ msgFields clRoom t ∧
      (pyTruthy t = true → clRoom.msg_format = "markdown" →
        List.lookup "markdown" reqRoomMd.fields = some (pyStrOr t "") ∧
        List.lookup "text" reqRoomMd.fields = none) ∧
      (pyTruthy t = true → clRoom.msg_format = "text" →
        List.lookup "text" reqRoomMd.fields = some (pyStrOr t "") ∧
        List.lookup "markdown" reqRoomMd.fields = none) ∧
      (pyTruthy t = false →
        List.lookup "text" reqRoomMd.fields = none ∧
        List.lookup "markdown" reqRoomMd.fields = none) ∧
      (List.lookup "text" reqRoomMd.fields = none ∨
        List.lookup "markdown" reqRoomMd.fields = none) :=
  message_field_selection clRoom rpNone ruNone tr200 (some "hi") none
    reqRoomMd (by decide)

/-- C4: for every request in a batch, including non-first requests, a
response with status 400 or higher makes the whole `send` fail with a
`RuntimeError` carrying that response's status code and body text. -/
theorem api_error_propagation (c : Client) (rp ru : String → Except WxError File)
    (tr : Nat → Response) (msg : Option String) (atts : List File) (i : Nat)
    (hb : ∀ f ∈ atts, blobFalsy f.blob = false)
    (hi : i < (if atts.isEmpty then 1 else atts.length))
    (hpre : ∀ j, j < i → is2xx (tr j).status = true)
    (hfail : 400 ≤ (tr i).status)
    (hmv : pyTruthy msg = true ∨ atts ≠ []) :
    (send c rp ru tr msg (some (atts.map FileItem.file))).result
      = .error (.runtimeError (apiErrMsg (tr i))) := by
  have hf2 : is2xx (tr i).status = false := is2xx_of_ge_400 _ hfail
  match atts with
  | [] =>
    have hm : pyTruthy msg = true := by
      rcases hmv with h | h
      · exact h
      · exact absurd rfl h
    have hi0 : i = 0 := by simp at hi; omega
    subst hi0
    simp [send, normalizeAll, hm, sendSingleStep_nofile, handleResponse_fail _ hf2,
      Except.map]
  | [a] =>
    have hi0 : i = 0 := by simp at hi; omega
    subst hi0
    have hba := hb a (by simp)
    simp [send, normalizeAll, normalizeItem, sendSingleStep_some c tr 0 msg a hba,
      handleResponse_fail _ hf2, Except.map]
  | a :: a2 :: rest =>
    have hba := hb a (by simp)
    cases Nat.eq_zero_or_pos i with
    | inl hi0 =>
      subst hi0
      simp [send, normalizeAll, normalizeItem, normalizeAll_files,
        sendSingleStep_some c tr 0 msg a hba, handleResponse_fail _ hf2]
    | inr hipos =>
      obtain ⟨d, hd⟩ := handleResponse_2xx (tr 0) (hpre 0 hipos)
      have hk : i - 1 < (a2 :: rest).length := by
        simp at hi ⊢
        omega
      have hpre' : ∀ j, j < i - 1 → is2xx (tr (1 + j)).status = true := by
        intro j hj
        have hx := hpre (j + 1) (by omega)
        have he : j + 1 = 1 + j := by omega
        rwa [he] at hx
      have hfail' : is2xx (tr (1 + (i - 1))).status = false := by
        have he : 1 + (i - 1) = i := by omega
        rwa [he]
      have hrest := sendRest_fail_at c tr (a2 :: rest) 1 (i - 1) hk hpre' hfail'
        (fun g hg => hb g (List.mem_cons_of_mem _ hg))
      have he : 1 + (i - 1) = i := by omega
      rw [he] at hrest
      have he2 : i - 1 + 1 = i := by omega
      rw [he2] at hrest
      simp [send, normalizeAll, normalizeItem, normalizeAll_files,
        sendSingleStep_some c tr 0 msg a hba, hd, hrest]

/-- Witness for C4: the second request of a two-attachment batch answers
`404` and `send` fails with that status and body. -/
theorem api_error_propagation_witness :
    (send clRoom rpNone ruNone trFail1 (some "hi")
        (some ([fileA, fileB].map FileItem.file))).result
      = .error (.runtimeError (apiErrMsg (trFail1 1))) :=
  api_error_propagation clRoom rpNone ruNone trFail1 (some "hi") [fileA, fileB] 1
    (by decide) (by decide)
    (fun j hj => by
      have hj0 : j = 0 := by omega
      subst hj0
      decide)
    (by decide) (Or.inl (by decide))

/-- C5: in a multi-attachment batch where request `i ≥ 1` fails, `send`
fails immediately with that request's error, exactly `i + 1` requests were
issued (none after the failing one), and the result carries only the error
(the decoded responses of the earlier succeeded requests appear nowhere in
the outcome). -/
theorem batch_fail_stop (c : Client) (rp ru : String → Except WxError File)
    (tr : Nat → Response) (msg : Option String) (a a2 : File) (rest : List File) (i : Nat)
    (hb : ∀ f ∈ a :: a2 :: rest, blobFalsy f.blob = false)
    (h1 : 1 ≤ i) (hi : i < (a :: a2 :: rest).length)
    (hpre : ∀ j, j < i → is2xx (tr j).status = true)
    (hfail : 400 ≤ (tr i).status) :
    (send c rp ru tr msg (some ((a :: a2 :: rest).map FileItem.file))).result
        = .error (.runtimeError (apiErrMsg (tr i))) ∧
    (send c rp ru tr msg (some ((a :: a2 :: rest).map FileItem.file))).requests.length
        = i + 1 := by
  have hf2 : is2xx (tr i).status = false := is2xx_of_ge_400 _ hfail
  have hba := hb a (by simp)
  obtain ⟨d, hd⟩ := handleResponse_2xx (tr 0) (hpre 0 (by omega))
  have hk : i - 1 < (a2 :: rest).length := by
    simp at hi ⊢
    omega
  have hpre' : ∀ j, j < i - 1 → is2xx (tr (1 + j)).status = true := by
    intro j hj
    have hx := hpre (j + 1) (by omega)
    have he : j + 1 = 1 + j := by omega
    rwa [he] at hx
  have hfail' : is2xx (tr (1 + (i - 1))).status = false := by
    have he : 1 + (i - 1) = i := by omega
    rwa [he]
  have hrest := sendRest_fail_at c tr (a2 :: rest) 1 (i - 1) hk hpre' hfail'
    (fun g hg => hb g (List.mem_cons_of_mem _ hg))
  have he : 1 + (i - 1) = i := by omega
  rw [he] at hrest
  have he2 : i - 1 + 1 = i := by omega
  rw [he2] at hrest
  constructor
  · simp [send, normalizeAll, normalizeItem, normalizeAll_files,
      sendSingleStep_some c tr 0 msg a hba, hd, hrest]
  · have hreq : (send c rp ru tr msg (some ((a :: a2 :: rest).map FileItem.file))).requests
        = attachRequest c msg a :: ((a2 :: rest).take i).map (attachRequest c none) := by
      simp [send, normalizeAll, normalizeItem, normalizeAll_files,
        sendSingleStep_some c tr 0 msg a hba, hd, hrest]
    rw [hreq]
    have hle : i ≤ (a2 :: rest).length := by
      simp at hi ⊢
      omega
    simp [List.length_take, Nat.min_eq_left hle]
    simpa using hle

/-- Witness for C5 at a two-attachment batch whose second request fails. -/
theorem batch_fail_stop_witness :
    (send clRoom rpNone ruNone trFail1 (some "hi")
        (some ([fileA, fileB].map FileItem.file))).result
        = .error (.runtimeError (apiErrMsg (trFail1 1))) ∧
    (send clRoom rpNone ruNone trFail1 (some "hi")
        (some ([fileA, fileB].map FileItem.file))).requests.length = 2 :=
  batch_fail_stop clRoom rpNone ruNone trFail1 (some "hi") fileA fileB [] 1
    (by decide) (by decide) (by decide)
    (fun j hj => by
      have hj0 : j = 0 := by omega
      subst hj0
      decide)
    (by decide)

/-- C7 counterexample: with no CLI token, `WEBEX_TOKEN` set but empty in the
process environment, and a non-empty `WEBEX_TOKEN` in the dotenv file, the
claim's precedence (non-empty CLI > non-empty environment > non-empty file >
default) requires the file value `"abc"`; the code resolves the empty
environment value because `load_dotenv(override=False)` never overrides a
variable that is set, even to the empty string. -/
theorem config_env_empty_masks_file_cex :
    (resolveConfig argsNone [("WEBEX_TOKEN", "")] [("WEBEX_TOKEN", "abc")]).map
        ResolvedConfig.token = .ok (some "") ∧
    (resolveConfig argsNone [("WEBEX_TOKEN", "")] [("WEBEX_TOKEN", "abc")]).map
        ResolvedConfig.token ≠ .ok (some "abc") := by
  decide

/-- C7 (amended): whenever the resolution succeeds, each of the seven
configuration fields is resolved with precedence CLI > environment > file >
default, where a non-empty CLI value wins, a SET environment variable (even
one set to the empty string) wins over the file, and the file value applies
exactly when the variable is entirely absent from the process environment;
boolean flags follow the same chain with the CLI flag's presence deciding the
CLI level, and the timeout follows it with the parsed float of the selected
string (default `"10"`), except that a set but unparseable (for example
empty) `WEBEX_TIMEOUT` makes the whole resolution fail with `ValueError`
instead of falling through. -/
theorem config_precedence (args : CliArgs) (os fv : Env) :
    (∀ cfg, resolveConfig args os fv = .ok cfg →
      ((pyTruthy args.token = true → cfg.token = args.token) ∧
      (∀ v, pyTruthy args.token = false → List.lookup "WEBEX_TOKEN" os = some v →
        cfg.token = some v) ∧
      (∀ v, pyTruthy args.token = false → List.lookup "WEBEX_TOKEN" os = none →
        List.lookup "WEBEX_TOKEN" fv = some v → cfg.token = some v) ∧
      (pyTruthy args.token = false → List.lookup "WEBEX_TOKEN" os = none →
        List.lookup "WEBEX_TOKEN" fv = none → cfg.token = none) ∧
      (pyTruthy args.dst = true → cfg.dst = args.dst) ∧
      (∀ v, pyTruthy args.dst = false → List.lookup "WEBEX_DST" os = some v →
        cfg.dst = some v) ∧
      (∀ v, pyTruthy args.dst = false → List.lookup "WEBEX_DST" os = none →
        List.lookup "WEBEX_DST" fv = some v → cfg.dst = some v) ∧
      (pyTruthy args.dst = false → List.lookup "WEBEX_DST" os = none →
        List.lookup "WEBEX_DST" fv = none → cfg.dst = none) ∧
      (pyTruthy args.proxy = true → cfg.proxy = args.proxy) ∧
      (∀ v, pyTruthy args.proxy = false → List.lookup "WEBEX_PROXY" os = some v →
        cfg.proxy = some v) ∧
      (∀ v, pyTruthy args.proxy = false → List.lookup "WEBEX_PROXY" os = none →
        List.lookup "WEBEX_PROXY" fv = some v → cfg.proxy = some v) ∧
      (pyTruthy args.proxy = false → List.lookup "WEBEX_PROXY" os = none →
        List.lookup "WEBEX_PROXY" fv = none → cfg.proxy = none) ∧
      (∀ s, args.msg_format = some s → s ≠ "" → cfg.msg_format = lowerString s) ∧
      (∀ v, pyTruthy args.msg_format = false → List.lookup "WEBEX_FORMAT" os = some v →
        cfg.msg_format = lowerString v) ∧
      (∀ v, pyTruthy args.msg_format = false → List.lookup "WEBEX_FORMAT" os = none →
        List.lookup "WEBEX_FORMAT" fv = some v → cfg.msg_format = lowerString v) ∧
      (pyTruthy args.msg_format = false → List.lookup "WEBEX_FORMAT" os = none →
        List.lookup "WEBEX_FORMAT" fv = none → cfg.msg_format = "markdown") ∧
      (∀ t, args.timeout = some t → cfg.timeout = t) ∧
      (∀ v q, args.timeout = none → List.lookup "WEBEX_TIMEOUT" os = some v →
        pyFloat? v = some q → cfg.timeout = q) ∧
      (∀ v q, args.timeout = none → List.lookup "WEBEX_TIMEOUT" os = none →
        List.lookup "WEBEX_TIMEOUT" fv = some v → pyFloat? v = some q → cfg.timeout = q) ∧
      (args.timeout = none → List.lookup "WEBEX_TIMEOUT" os = none →
        List.lookup "WEBEX_TIMEOUT" fv = none → cfg.timeout = mkRat 10 1) ∧
      (∀ b, args.insecure = some b → cfg.insecure = b) ∧
      (∀ v, args.insecure = none → List.lookup "WEBEX_INSECURE" os = some v →
        cfg.insecure = truthyTokens.contains (lowerString v)) ∧
      (∀ v, args.insecure = none → List.lookup "WEBEX_INSECURE" os = none →
        List.lookup "WEBEX_INSECURE" fv = some v →
        cfg.insecure = truthyTokens.contains (lowerString v)) ∧
      (args.insecure = none → List.lookup "WEBEX_INSECURE" os = none →
        List.lookup "WEBEX_INSECURE" fv = none → cfg.insecure = false) ∧
      (∀ b, args.verbose = some b → cfg.verbose = b) ∧
      (∀ v, args.verbose = none → List.lookup "WEBEX_VERBOSE" os = some v →
        cfg.verbose = ((!v.isEmpty) && truthyTokens.contains (lowerString v))) ∧
      (∀ v, args.verbose = none → List.lookup "WEBEX_VERBOSE" os = none →
        List.lookup "WEBEX_VERBOSE" fv = some v →
        cfg.verbose = ((!v.isEmpty) && truthyTokens.contains (lowerString v))) ∧
      (args.verbose = none → List.lookup "WEBEX_VERBOSE" os = none →
        List.lookup "WEBEX_VERBOSE" fv = none → cfg.verbose = false))) ∧
    (∀ v, args.timeout = none →
      List.lookup "WEBEX_TIMEOUT" (load_dotenv_noOverride os fv) = some v →
      pyFloat? v = none →
      resolveConfig args os fv
        = .error (.valueError ("could not convert string to float: " ++ v))) := by
  constructor
  · intro cfg hok
    simp only [resolveConfig] at hok
    split at hok
    · exact absurd hok (by simp)
    · rename_i t heq
      injection hok with hok
      subst hok
      refine ⟨?_, ?_, ?_, ?_, ?_, ?_, ?_, ?_, ?_, ?_, ?_, ?_, ?_, ?_, ?_, ?_, ?_, ?_, ?_,
        ?_, ?_, ?_, ?_, ?_, ?_, ?_, ?_, ?_⟩
      · intro hcl
        simp only [pyOrOpt_left hcl]
      · intro v hcl henv
        simp only [pyOrOpt_right hcl, lookup_loadDotenv, henv]
      · intro v hcl henv hfv
        simp only [pyOrOpt_right hcl, lookup_loadDotenv, henv, hfv]
      · intro hcl henv hfv
        simp only [pyOrOpt_right hcl, lookup_loadDotenv, henv, hfv]
      · intro hcl
        simp only [pyOrOpt_left hcl]
      · intro v hcl henv
        simp only [pyOrOpt_right hcl, lookup_loadDotenv, henv]
      · intro v hcl henv hfv
        simp only [pyOrOpt_right hcl, lookup_loadDotenv, henv, hfv]
      · intro hcl henv hfv
        simp only [pyOrOpt_right hcl, lookup_loadDotenv, henv, hfv]
      · intro hcl
        simp only [pyOrOpt_left hcl]
      · intro v hcl henv
        simp only [pyOrOpt_right hcl, lookup_loadDotenv, henv]
      · intro v hcl henv hfv
        simp only [pyOrOpt_right hcl, lookup_loadDotenv, henv, hfv]
      · intro hcl henv hfv
        simp only [pyOrOpt_right hcl, lookup_loadDotenv, henv, hfv]
      · intro s hs hne
        have hcl : pyTruthy (some s) = true := by simp [pyTruthy, hne]
        simp only [hs, pyOrOpt_left hcl, Option.getD_some]
      · intro v hcl henv
        simp only [pyOrOpt_right hcl, lookup_loadDotenv, henv, Option.getD_some]
      · intro v hcl henv hfv
        simp only [pyOrOpt_right hcl, lookup_loadDotenv, henv, hfv, Option.getD_some]
      · intro hcl henv hfv
        simp only [pyOrOpt_right hcl, lookup_loadDotenv, henv, hfv]
        decide
      · intro t0 hat
        rw [hat] at heq
        simp only [Option.some.injEq] at heq
        simp [heq]
      · intro v q hat henv hq
        simp only [hat, lookup_loadDotenv, henv, Option.getD_some] at heq
        rw [hq] at heq
        simp only [Option.some.injEq] at heq
        simp [heq]
      · intro v q hat henv hfv hq
        simp only [hat, lookup_loadDotenv, henv, hfv, Option.getD_some] at heq
        rw [hq] at heq
        simp only [Option.some.injEq] at heq
        simp [heq]
      · intro hat henv hfv
        simp only [hat, lookup_loadDotenv, henv, hfv, Option.getD_none] at heq
        rw [show pyFloat? "10" = some (mkRat 10 1) from by decide] at heq
        simp only [Option.some.injEq] at heq
        simp [heq]
      · intro b hb
        simp only [hb]
      · intro v hb henv
        simp only [hb, lookup_loadDotenv, henv]
      · intro v hb henv hfv
        simp only [hb, lookup_loadDotenv, henv, hfv]
      · intro hb henv hfv
        simp only [hb, lookup_loadDotenv, henv, hfv]
      · intro b hb
        simp only [hb]
      · intro v hb henv
        simp only [hb, lookup_loadDotenv, henv]
      · intro v hb henv hfv
        simp only [hb, lookup_loadDotenv, henv, hfv]
      · intro hb henv hfv
        simp only [hb, lookup_loadDotenv, henv, hfv]
  · intro v hat hlook hp
    simp only [resolveConfig, hat, hlook, Option.getD_some, hp]

/-- Witness for C7's amended theorem: a CLI token wins over a set environment
token and a file token, with the timeout resolved to the default. -/
theorem config_precedence_witness :
    cfgCliTok.token = some "clitok" :=
  ((config_precedence argsCliTok [("WEBEX_TOKEN", "envtok")]
      [("WEBEX_TOKEN", "filetok")]).1 cfgCliTok (by decide)).1 (by decide)

/-- C8 counterexample: a successful URL resolution whose response carries no
`Content-Type` header yields an attachment with no MIME type; the claim
requires the MIME type to be guessed from the resolved filename `x.png`
(which would give `image/png`), but the source never calls the guesser in
`create_file_from_url`. -/
theorem url_mime_no_guess_cex :
    create_file_from_url "https" "/files/x.png" ⟨200, none, none, [1]⟩
      = .ok ⟨none, some "x.png", some "png", some [1]⟩ ∧
    mimetypes_guess_type "x.png" = some "image/png" := by
  decide

/-- C8 (amended): for every successful `create_file_from_url` resolution, the
attachment's MIME type equals the response's `Content-Type` header value when
that header is present, and is absent when the header is absent (no guess
from the filename is ever performed). -/
theorem url_mime_header_verbatim (scheme urlPath : String) (resp : UrlResponse) (f : File)
    (h : create_file_from_url scheme urlPath resp = .ok f) :
    f.mime_type = resp.contentType := by
  simp only [create_file_from_url] at h
  split at h
  · cases h
  · split at h
    · cases h
    · simp only [Except.ok.injEq] at h
      rw [← h]

/-- Witness for C8's amended theorem at a response with a `Content-Type`
header. -/
theorem url_mime_header_verbatim_witness :
    (⟨some "image/png", some "x.png", some "png", some [1]⟩ : File).mime_type
      = (⟨200, some "image/png", none, [1]⟩ : UrlResponse).contentType :=
  url_mime_header_verbatim "https" "/x.png" ⟨200, some "image/png", none, [1]⟩
    ⟨some "image/png", some "x.png", some "png", some [1]⟩ (by decide)

/-- C10 counterexample: a `send` call that fails input validation (no message
and an empty attachment list) raises before the `try`/`finally` protecting
the dispatch phase, so the underlying HTTP client is not closed, contradicting
the claim that the client is closed after every `send` call. -/
theorem client_not_closed_on_invalid_input_cex :
    (send clRoom rpNone ruNone tr200 none (some [])).clientClosed = false ∧
    (send clRoom rpNone ruNone tr200 none (some [])).result
      = .error (.valueError "Either message or files must be provided") := by
  decide

/-- C10 (amended): after every `send` call that passes attachment
normalization and the message-or-files validation, the underlying HTTP client
is closed, whether the dispatch returns a result or raises (the close runs in
a `finally` whose own failure is suppressed); calls that fail normalization
or validation leave the client open. -/
theorem client_closed_after_dispatch (c : Client)
    (rp ru : String → Except WxError File) (tr : Nat → Response)
    (message : Option String) (files : Option (List FileItem)) (prepared : List File)
    (hn : normalizeAll rp ru (files.getD []) = .ok prepared)
    (hv : pyTruthy message = true ∨ prepared ≠ []) :
    (send c rp ru tr message files).clientClosed = true := by
  simp only [send]
  split
  · rename_i e heq
    rw [hn] at heq
    cases heq
  · rename_i prepared' heq
    rw [hn] at heq
    injection heq with heq
    subst heq
    have hcond : ¬ (¬ pyTruthy message = true ∧ prepared.isEmpty = true) := by
      rcases hv with h | h
      · intro hc
        exact hc.1 h
      · intro hc
        exact h (List.isEmpty_iff.mp hc.2)
    rw [if_neg hcond]
    rcases prepared with _ | ⟨f, _ | ⟨f2, fs⟩⟩
    · rfl
    · rfl
    · dsimp only
      split
      · rfl
      · split
        · rfl
        · rfl

/-- Witness for C10's amended theorem at a message-only call. -/
theorem client_closed_after_dispatch_witness :
    (send clRoom rpNone ruNone tr200 (some "hi") none).clientClosed = true :=
  client_closed_after_dispatch clRoom rpNone ruNone tr200 (some "hi") none []
    rfl (Or.inl (by decide))

end Webex
